import Mathlib

/-!
Shallow embedding of `src/fetch-data.ts` from the `gias-data` repository.

The embedding follows the TypeScript source function by function:
* `validateCSVContent`, `isHtmlContent`, `isValidCsv` — pure string
  validators, modelled on `String` (JS strings) with substring search
  modelled as `List.IsInfix` on the character lists.
* `checkFileSizeChange` — pure size comparison; JS `number` arithmetic on
  byte counts is modelled exactly over `ℚ` (the sizes involved are
  integers coming from `fs.stat`).  The warning string produced by the
  source is modelled structurally by `SizeWarning`, which records the
  file name, the direction label, the exact percent (the source displays
  it rounded to two decimals), and the old/new byte counts that the
  string interpolates.
* `downloadFile` — the download/validate/compare/commit pipeline.  The
  filesystem is a map from path strings to file contents; each `fs` call
  of the source is a state transformer that can also throw, modelled with
  `Except Fs` (the error carries the state at the throw point, matching a
  raised JS exception).  The injected `fetch` transport is modelled by
  `TransportResult`; fault injection for the filesystem calls is
  `FsFaults`.  The outer `try/catch` of the source absorbs every throw,
  so the embedded `downloadFile` is a total function — no exception
  escapes to the caller.
* `fetchData` — the batch orchestrator looping over the template catalog,
  threading the filesystem state.  Date formatting is delegated to the
  external `date-fns` library in the source, so the embedding takes the
  already-formatted date token as input; directory creation is a no-op on
  the file map (directories are not modelled).
-/

namespace GiasData

/-- Result record of the consolidated validator (`ValidationResult` in the
source); `reason` is the optional reason string. -/
structure ValidationResult where
  isValid : Bool
  reason : Option String := none
deriving DecidableEq, Repr

/-- The four literal HTML markers of `validateCSVContent` / `isHtmlContent`. -/
def htmlPatterns : List String := ["<!DOCTYPE", "<html", "<body", "<head"]

/-- JS `content.includes(pattern)` : case-sensitive, unanchored substring
test, i.e. the pattern's character list is an infix of the content's. -/
def jsIncludes (content pattern : String) : Bool :=
  decide (pattern.data <:+: content.data)

/-- Embedding of `validateCSVContent` (src/fetch-data.ts, lines 71–85). -/
def validateCSVContent (content : String) : ValidationResult :=
  if htmlPatterns.any (fun pattern => jsIncludes content pattern) then
    { isValid := false, reason := some "Content contains HTML markup" }
  else
    if !(((content.data.splitOn '\n').take 3).any (fun line => line.contains ',')) then
      { isValid := false, reason := some "Content lacks comma separators" }
    else
      { isValid := true }

/-- Embedding of the legacy `isHtmlContent` (lines 90–93). -/
def isHtmlContent (content : String) : Bool :=
  htmlPatterns.any (fun pattern => jsIncludes content pattern)

/-- Embedding of the legacy `isValidCsv` (lines 98–101). -/
def isValidCsv (content : String) : Bool :=
  ((content.data.splitOn '\n').take 3).any (fun line => line.contains ',')

/-- The direction label interpolated into the size-change warning string. -/
inductive ChangeDirection where
  | increased : ChangeDirection
  | decreased : ChangeDirection
deriving DecidableEq, Repr

/-- The opposite direction label. -/
def ChangeDirection.opp : ChangeDirection → ChangeDirection
  | .increased => .decreased
  | .decreased => .increased

/-- Structural model of the warning string built by `checkFileSizeChange`:
`WARNING: File <fileName> has <direction> in size by <percent>% (from
<oldSize> to <newSize> bytes)`.  `percent` is the exact value of
`sizeDifferencePercent`; the source displays it via `toFixed(2)`. -/
structure SizeWarning where
  fileName : String
  direction : ChangeDirection
  percent : ℚ
  oldSize : ℕ
  newSize : ℕ
deriving DecidableEq, Repr

/-- Return record of `checkFileSizeChange`. -/
structure SizeChangeResult where
  changed : Bool
  warning : Option SizeWarning
deriving DecidableEq, Repr

/-- Embedding of `checkFileSizeChange` (lines 106–124).  Byte counts are
naturals; the JS arithmetic `Math.abs((newSize - oldSize) / oldSize * 100)`
is carried out in `ℚ`. -/
def checkFileSizeChange (newSize oldSize : ℕ) (threshold : ℚ) (fileName : String) :
    SizeChangeResult :=
  if oldSize = 0 then { changed := false, warning := none }
  else
    let sizeDifferencePercent : ℚ := |((newSize : ℚ) - (oldSize : ℚ)) / (oldSize : ℚ) * 100|
    if sizeDifferencePercent > threshold then
      let changeDirection := if oldSize < newSize then ChangeDirection.increased
        else ChangeDirection.decreased
      { changed := true,
        warning := some
          { fileName := fileName, direction := changeDirection,
            percent := sizeDifferencePercent, oldSize := oldSize, newSize := newSize } }
    else
      { changed := false, warning := none }

/-- The filesystem: a map from path strings to file contents.  `none` means
no file exists at that path; a file's `fs.stat` size is its content length. -/
def Fs : Type := String → Option String

/-- Result of the injected transport call (`fetchFn url` in the source):
either the promise rejects (`throws`), or it resolves to a response with an
`ok` flag (2xx status) and a body readable as text. -/
inductive TransportResult where
  | throws : TransportResult
  | response (ok : Bool) (body : String) : TransportResult

/-- Fault injection for the filesystem calls of `downloadFile`: a `true`
flag makes the corresponding call throw.  `fs.access` is always wrapped by
`.then(() => true).catch(() => false)` in the source, so it cannot throw. -/
structure FsFaults where
  writeFaults : Bool
  statTempFaults : Bool
  statFinalFaults : Bool
  renameFaults : Bool
  unlinkFaults : Bool

/-- `fs.writeFile p content` : full overwrite, creates the file. -/
def fsWrite (fault : Bool) (p : String) (content : String) (fs : Fs) : Except Fs Fs :=
  if fault then .error fs
  else .ok (fun q => if q = p then some content else fs q)

/-- `(await fs.stat p).size` : throws when the file is missing. -/
def fsStat (fault : Bool) (p : String) (fs : Fs) : Except Fs ℕ :=
  if fault then .error fs
  else
    match fs p with
    | some c => .ok c.data.length
    | none => .error fs

/-- `fs.access(p).then(() => true).catch(() => false)` : never throws. -/
def fsExists (p : String) (fs : Fs) : Bool := (fs p).isSome

/-- `fs.rename src dst` : atomic move; throws when `src` is missing. -/
def fsRename (fault : Bool) (src dst : String) (fs : Fs) : Except Fs Fs :=
  if fault then .error fs
  else
    match fs src with
    | some c => .ok (fun q => if q = dst then some c else if q = src then none else fs q)
    | none => .error fs

/-- `fs.unlink p` : delete; throws when the file is missing (and when the
injected fault fires, in which case the file is untouched). -/
def fsUnlink (fault : Bool) (p : String) (fs : Fs) : Except Fs Fs :=
  if fault then .error fs
  else
    match fs p with
    | some _ => .ok (fun q => if q = p then none else fs q)
    | none => .error fs

/-- Per-file result of `downloadFile` (`{ success, warning }` in the
source; the warning string is modelled by `SizeWarning`). -/
structure FileDownloadResult where
  success : Bool
  warning : Option SizeWarning
deriving DecidableEq, Repr

/-- `path.basename` : the component after the last `/`. -/
def basename (p : String) : String := String.mk ((p.data.splitOn '/').getLastD p.data)

/-- The `try` block of `downloadFile` (lines 139–182): fetch, check `ok`,
read the body, validate, write the temp file, stat it, compare sizes when
the final file exists, and rename.  An `Except.error` carries the
filesystem state at the point the corresponding JS exception was raised. -/
def downloadTry (t : TransportResult) (faults : FsFaults) (outputPath tempPath : String)
    (threshold : ℚ) (fs : Fs) : Except Fs (FileDownloadResult × Fs) :=
  match t with
  | .throws => .error fs
  | .response ok body =>
    if !ok then .ok ({ success := false, warning := none }, fs)
    else
      if !(validateCSVContent body).isValid then .ok ({ success := false, warning := none }, fs)
      else
        match fsWrite faults.writeFaults tempPath body fs with
        | .error fsE => .error fsE
        | .ok fs1 =>
          match fsStat faults.statTempFaults tempPath fs1 with
          | .error fsE => .error fsE
          | .ok newFileSize =>
            match
              (if fsExists outputPath fs1 then
                match fsStat faults.statFinalFaults outputPath fs1 with
                | .error fsE => Except.error fsE
                | .ok existingFileSize =>
                  Except.ok (checkFileSizeChange newFileSize existingFileSize threshold
                    (basename outputPath)).warning
              else Except.ok none) with
            | .error fsE => .error fsE
            | .ok sizeWarning =>
              match fsRename faults.renameFaults tempPath outputPath fs1 with
              | .error fsE => .error fsE
              | .ok fs2 => .ok ({ success := true, warning := sizeWarning }, fs2)

/-- The `catch` block of `downloadFile` (lines 183–201): if the temp file
exists, try to unlink it; a failing unlink is caught by the inner
`try/catch` and the function still returns `{success:false, warning:null}`
with the temp file left in place. -/
def downloadCatch (unlinkFault : Bool) (tempPath : String) (fs : Fs) :
    FileDownloadResult × Fs :=
  if fsExists tempPath fs then
    match fsUnlink unlinkFault tempPath fs with
    | .ok fs1 => ({ success := false, warning := none }, fs1)
    | .error fsE => ({ success := false, warning := none }, fsE)
  else ({ success := false, warning := none }, fs)

/-- Embedding of `downloadFile` (lines 129–202).  The outer `try/catch`
absorbs every exception of the `try` block, so the embedded function is
total: no exception propagates to the caller. -/
def downloadFile (t : TransportResult) (faults : FsFaults) (outputPath tempPath : String)
    (threshold : ℚ) (fs : Fs) : FileDownloadResult × Fs :=
  match downloadTry t faults outputPath tempPath threshold fs with
  | .ok r => r
  | .error fsE => downloadCatch faults.unlinkFaults tempPath fsE

/-- A URL pattern plus its logical output filename (`FileTemplate`). -/
structure FileTemplate where
  urlTemplate : String
  outputFile : String
deriving DecidableEq, Repr

/-- Batch result of `fetchData` (`DownloadResult` in the source; warning
strings are modelled by `SizeWarning`). -/
structure DownloadResult where
  downloadedFiles : List String
  skippedFiles : List String
  fileSizeWarnings : List SizeWarning
deriving DecidableEq, Repr

/-- JS `String.prototype.replace` with a string search value: replace the
first occurrence only; leave the string unchanged when the search value
does not occur. -/
def replaceFirstAux (repl pat : List Char) : List Char → List Char
  | [] => if pat.isPrefixOf ([] : List Char) then repl else []
  | c :: cs =>
    if pat.isPrefixOf (c :: cs) then repl ++ (c :: cs).drop pat.length
    else c :: replaceFirstAux repl pat cs

/-- JS `s.replace(pat, repl)` for string `pat` (first match only). -/
def replaceFirst (s pat repl : String) : String :=
  String.mk (replaceFirstAux repl.data pat.data s.data)

/-- `path.join(dir, file)` for a plain relative file name. -/
def pathJoin (dir file : String) : String := dir ++ "/" ++ file

/-- The static template catalog `DEFAULT_URL_TEMPLATES` (13 entries). -/
def DEFAULT_URL_TEMPLATES : List FileTemplate :=
  [ { urlTemplate := "{baseUrl}/edubasealldata{0}.csv", outputFile := "edubasealldata.csv" },
    { urlTemplate := "{baseUrl}/links_edubasealldata{0}.csv",
      outputFile := "links_edubasealldata.csv" },
    { urlTemplate := "{baseUrl}/edubaseallstatefunded{0}.csv",
      outputFile := "edubaseallstatefunded.csv" },
    { urlTemplate := "{baseUrl}/links_edubaseallstatefunded{0}.csv",
      outputFile := "links_edubaseallstatefunded.csv" },
    { urlTemplate := "{baseUrl}/edubaseallacademiesandfree{0}.csv",
      outputFile := "edubaseallacademiesandfree.csv" },
    { urlTemplate := "{baseUrl}/links_edubaseallacademiesandfree{0}.csv",
      outputFile := "links_edubaseallacademiesandfree.csv" },
    { urlTemplate := "{baseUrl}/grouplinks_edubaseallacademiesandfree{0}.csv",
      outputFile := "grouplinks_edubaseallacademiesandfree.csv" },
    { urlTemplate := "{baseUrl}/edubaseallchildrencentre{0}.csv",
      outputFile := "edubaseallchildrencentre.csv" },
    { urlTemplate := "{baseUrl}/academiesmatmembership{0}.csv",
      outputFile := "academiesmatmembership.csv" },
    { urlTemplate := "{baseUrl}/governancealldata{0}.csv", outputFile := "governancealldata.csv" },
    { urlTemplate := "{baseUrl}/governancematdata{0}.csv", outputFile := "governancematdata.csv" },
    { urlTemplate := "{baseUrl}/governanceacaddata{0}.csv", outputFile := "governanceacaddata.csv" },
    { urlTemplate := "{baseUrl}/governanceladata{0}.csv", outputFile := "governanceladata.csv" } ]

/-- The per-template loop of `fetchData` (lines 233–257), threading the
filesystem state.  `i` indexes the fault injection per iteration; the
transport is keyed by the concrete URL. -/
def fetchLoop (transport : String → TransportResult) (faults : ℕ → FsFaults)
    (outputDir baseUrl dateStr : String) (threshold : ℚ) :
    List FileTemplate → ℕ → Fs → DownloadResult × Fs
  | [], _, fs => ({ downloadedFiles := [], skippedFiles := [], fileSizeWarnings := [] }, fs)
  | template :: rest, i, fs =>
    let outputPath := pathJoin outputDir template.outputFile
    let tempPath := outputPath ++ ".tmp"
    let urlWithBase := replaceFirst template.urlTemplate "{baseUrl}" baseUrl
    let url := replaceFirst urlWithBase "{0}" dateStr
    let step := downloadFile (transport url) (faults i) outputPath tempPath threshold fs
    let acc := fetchLoop transport faults outputDir baseUrl dateStr threshold rest (i + 1) step.2
    if step.1.success then
      ({ downloadedFiles := outputPath :: acc.1.downloadedFiles,
         skippedFiles := acc.1.skippedFiles,
         fileSizeWarnings :=
           match step.1.warning with
           | some w => w :: acc.1.fileSizeWarnings
           | none => acc.1.fileSizeWarnings }, acc.2)
    else
      ({ downloadedFiles := acc.1.downloadedFiles,
         skippedFiles := template.outputFile :: acc.1.skippedFiles,
         fileSizeWarnings := acc.1.fileSizeWarnings }, acc.2)

/-- Embedding of `fetchData` (lines 207–279): resolves the effective
configuration outside this model (the formatted date token and the merged
config fields are passed in), ensures the output directory (not modelled on
the file map), and drives `downloadFile` over the template list. -/
def fetchData (transport : String → TransportResult) (faults : ℕ → FsFaults)
    (outputDir baseUrl dateStr : String) (threshold : ℚ)
    (templates : List FileTemplate) (fs : Fs) : DownloadResult × Fs :=
  fetchLoop transport faults outputDir baseUrl dateStr threshold templates 0 fs

/-- Specification-side partition: the final paths of the successful
templates, in order. -/
def successOutputs (outputDir : String) (l : List (FileTemplate × FileDownloadResult)) :
    List String :=
  (l.filter (fun pr => pr.2.success)).map (fun pr => pathJoin outputDir pr.1.outputFile)

/-- Specification-side partition: the logical filenames of the failed
templates, in order. -/
def failureNames (l : List (FileTemplate × FileDownloadResult)) : List String :=
  (l.filter (fun pr => !pr.2.success)).map (fun pr => pr.1.outputFile)

/-- Specification-side partition: the non-null warnings of the successful
templates, in order. -/
def successWarnings (l : List (FileTemplate × FileDownloadResult)) : List SizeWarning :=
  l.filterMap (fun pr => if pr.2.success then pr.2.warning else none)

/-! ## Helper lemmas -/

/-- `jsIncludes` decides substring containment. -/
theorem jsIncludes_iff (content pattern : String) :
    jsIncludes content pattern = true ↔ pattern.data <:+: content.data := by
  simp [jsIncludes]

/-- The catch block always reports failure with a null warning. -/
theorem downloadCatch_fst (u : Bool) (p : String) (fs : Fs) :
    (downloadCatch u p fs).1 = { success := false, warning := none } := by
  rw [downloadCatch]
  split
  · cases h : fsUnlink u p fs <;> simp [h]
  · rfl

/-- The catch block touches no path other than the temp path. -/
theorem downloadCatch_snd_ne (u : Bool) (p q : String) (fs : Fs) (hq : q ≠ p) :
    (downloadCatch u p fs).2 q = fs q := by
  rw [downloadCatch]
  split
  · next hex =>
    rw [fsUnlink]
    cases u with
    | false =>
      simp only [Bool.false_eq_true, if_false]
      rw [fsExists] at hex
      obtain ⟨c, hc⟩ := Option.isSome_iff_exists.mp hex
      simp [hc, hq]
    | true => simp
  · rfl

/-- With a working unlink, the catch block leaves no file at the temp path. -/
theorem downloadCatch_snd_self_ok (p : String) (fs : Fs) :
    (downloadCatch false p fs).2 p = none := by
  rw [downloadCatch]
  split
  · next hex =>
    rw [fsUnlink]
    simp only [Bool.false_eq_true, if_false]
    rw [fsExists] at hex
    obtain ⟨c, hc⟩ := Option.isSome_iff_exists.mp hex
    simp [hc]
  · next hex =>
    rw [fsExists] at hex
    simpa using hex

/-- With a faulting unlink, the catch block leaves the filesystem as it was. -/
theorem downloadCatch_snd_fault (p : String) (fs : Fs) :
    (downloadCatch true p fs).2 = fs := by
  rw [downloadCatch]
  split
  · rw [fsUnlink]; simp
  · rfl

/-- A non-2xx response returns failure without touching the filesystem. -/
theorem downloadFile_not_ok (body : String) (faults : FsFaults)
    (outputPath tempPath : String) (threshold : ℚ) (fs0 : Fs) :
    downloadFile (TransportResult.response false body) faults outputPath tempPath threshold fs0 =
      ({ success := false, warning := none }, fs0) := by
  simp [downloadFile, downloadTry]

/-- Invalid content returns failure without touching the filesystem. -/
theorem downloadFile_invalid (body : String) (faults : FsFaults)
    (outputPath tempPath : String) (threshold : ℚ) (fs0 : Fs)
    (hv : (validateCSVContent body).isValid = false) :
    downloadFile (TransportResult.response true body) faults outputPath tempPath threshold fs0 =
      ({ success := false, warning := none }, fs0) := by
  simp [downloadFile, downloadTry, hv]

/-- A rejecting transport sends `downloadFile` to the catch block on the
initial state. -/
theorem downloadFile_throws (faults : FsFaults)
    (outputPath tempPath : String) (threshold : ℚ) (fs0 : Fs) :
    downloadFile TransportResult.throws faults outputPath tempPath threshold fs0 =
      downloadCatch faults.unlinkFaults tempPath fs0 := by
  rw [downloadFile, downloadTry]

/-- A faulting `writeFile` sends `downloadFile` to the catch block on the
initial state. -/
theorem downloadFile_write_throw (body : String) (faults : FsFaults)
    (outputPath tempPath : String) (threshold : ℚ) (fs0 : Fs)
    (hv : (validateCSVContent body).isValid = true)
    (hwrite : faults.writeFaults = true) :
    downloadFile (TransportResult.response true body) faults outputPath tempPath threshold fs0 =
      downloadCatch faults.unlinkFaults tempPath fs0 := by
  rw [downloadFile, downloadTry]
  simp [hv, fsWrite, hwrite]

/-- Any throw between the temp write and the rename sends `downloadFile` to
the catch block on the state holding the freshly written temp file. -/
theorem downloadFile_post_write_throw (body : String) (faults : FsFaults)
    (outputPath tempPath : String) (threshold : ℚ) (fs0 : Fs)
    (hpaths : tempPath ≠ outputPath)
    (hv : (validateCSVContent body).isValid = true)
    (hwrite : faults.writeFaults = false)
    (hfail : faults.statTempFaults = true ∨ faults.renameFaults = true ∨
      ((fs0 outputPath).isSome = true ∧ faults.statFinalFaults = true)) :
    downloadFile (TransportResult.response true body) faults outputPath tempPath threshold fs0 =
      downloadCatch faults.unlinkFaults tempPath
        (fun q => if q = tempPath then some body else fs0 q) := by
  have hop : outputPath ≠ tempPath := Ne.symm hpaths
  rw [downloadFile, downloadTry]
  simp only [Bool.not_true, Bool.false_eq_true, if_false, hv, fsWrite, hwrite]
  cases hst : faults.statTempFaults with
  | true => simp [fsStat]
  | false =>
    have hr_or : faults.renameFaults = true ∨
        ((fs0 outputPath).isSome = true ∧ faults.statFinalFaults = true) := by
      rcases hfail with h | h | h
      · rw [hst] at h; exact absurd h (by simp)
      · exact Or.inl h
      · exact Or.inr h
    simp only [fsStat, Bool.false_eq_true, if_false, if_pos rfl]
    by_cases hex : (fs0 outputPath).isSome = true
    · have hex1 : fsExists outputPath (fun q => if q = tempPath then some body else fs0 q) =
          true := by simp [fsExists, hop, hex]
      rw [hex1]
      simp only [if_true]
      cases hsf : faults.statFinalFaults with
      | true => simp [fsStat]
      | false =>
        have hr : faults.renameFaults = true := by
          rcases hr_or with h | ⟨_, h⟩
          · exact h
          · rw [hsf] at h; exact absurd h (by simp)
        obtain ⟨c, hc⟩ := Option.isSome_iff_exists.mp hex
        simp [fsStat, hop, hc, fsRename, hr]
    · have hex1 : fsExists outputPath (fun q => if q = tempPath then some body else fs0 q) =
          false := by simp [fsExists, hop]; simpa using hex
      rw [hex1]
      have hr : faults.renameFaults = true := by
        rcases hr_or with h | ⟨h2, _⟩
        · exact h
        · exact absurd h2 hex
      simp [fsRename, hr]

/-- When every step succeeds, `downloadFile` commits: success is reported,
the temp file is renamed away, and the final path holds the new body. -/
theorem downloadFile_success_facts (body : String) (faults : FsFaults)
    (outputPath tempPath : String) (threshold : ℚ) (fs0 : Fs)
    (hpaths : tempPath ≠ outputPath)
    (hv : (validateCSVContent body).isValid = true)
    (hwrite : faults.writeFaults = false) (hst : faults.statTempFaults = false)
    (hr : faults.renameFaults = false)
    (hok : faults.statFinalFaults = false ∨ (fs0 outputPath).isSome = false) :
    (downloadFile (TransportResult.response true body) faults outputPath tempPath threshold
        fs0).1.success = true ∧
      (downloadFile (TransportResult.response true body) faults outputPath tempPath threshold
        fs0).2 tempPath = none ∧
      (downloadFile (TransportResult.response true body) faults outputPath tempPath threshold
        fs0).2 outputPath = some body := by
  have hop : outputPath ≠ tempPath := Ne.symm hpaths
  rw [downloadFile, downloadTry]
  simp only [Bool.not_true, Bool.false_eq_true, if_false, hv, fsWrite, hwrite]
  simp only [fsStat, hst, Bool.false_eq_true, if_false, if_pos rfl]
  by_cases hex : (fs0 outputPath).isSome = true
  · have hsf : faults.statFinalFaults = false := by
      rcases hok with h | h
      · exact h
      · rw [hex] at h; exact absurd h (by simp)
    have hex1 : fsExists outputPath (fun q => if q = tempPath then some body else fs0 q) =
        true := by simp [fsExists, hop, hex]
    rw [hex1]
    obtain ⟨c, hc⟩ := Option.isSome_iff_exists.mp hex
    simp [fsStat, hsf, hop, hc, fsRename, hr, hpaths]
  · have hex1 : fsExists outputPath (fun q => if q = tempPath then some body else fs0 q) =
        false := by simp [fsExists, hop]; simpa using hex
    rw [hex1]
    simp [fsRename, hr, hop, hpaths]

/-- The two spec-side outcome lists partition their input list. -/
theorem partition_length (outputDir : String) (l : List (FileTemplate × FileDownloadResult)) :
    (successOutputs outputDir l).length + (failureNames l).length = l.length := by
  induction l with
  | nil => rfl
  | cons pr rest ih =>
    cases hs : pr.2.success <;>
      simp [successOutputs, failureNames, List.filter_cons, hs] at ih ⊢ <;> omega

/-- The loop of `fetchData` partitions the templates by per-file outcome. -/
theorem fetchLoop_partition (transport : String → TransportResult) (faults : ℕ → FsFaults)
    (outputDir baseUrl dateStr : String) (threshold : ℚ) :
    ∀ (templates : List FileTemplate) (i : ℕ) (fs : Fs),
      ∃ rs : List FileDownloadResult,
        rs.length = templates.length ∧
        (fetchLoop transport faults outputDir baseUrl dateStr threshold templates i
            fs).1.downloadedFiles = successOutputs outputDir (templates.zip rs) ∧
        (fetchLoop transport faults outputDir baseUrl dateStr threshold templates i
            fs).1.skippedFiles = failureNames (templates.zip rs) ∧
        (fetchLoop transport faults outputDir baseUrl dateStr threshold templates i
            fs).1.fileSizeWarnings = successWarnings (templates.zip rs)
  | [], i, fs => ⟨[], rfl, rfl, rfl, rfl⟩
  | template :: rest, i, fs => by
    obtain ⟨rs, hlen, hd, hsk, hw⟩ :=
      fetchLoop_partition transport faults outputDir baseUrl dateStr threshold rest (i + 1)
        (downloadFile
          (transport (replaceFirst (replaceFirst template.urlTemplate "{baseUrl}" baseUrl)
            "{0}" dateStr))
          (faults i) (pathJoin outputDir template.outputFile)
          (pathJoin outputDir template.outputFile ++ ".tmp") threshold fs).2
    refine ⟨(downloadFile
        (transport (replaceFirst (replaceFirst template.urlTemplate "{baseUrl}" baseUrl)
          "{0}" dateStr))
        (faults i) (pathJoin outputDir template.outputFile)
        (pathJoin outputDir template.outputFile ++ ".tmp") threshold fs).1 :: rs,
      by simp [hlen], ?_, ?_, ?_⟩ <;>
    · simp only [fetchLoop]
      cases hs : (downloadFile
          (transport (replaceFirst (replaceFirst template.urlTemplate "{baseUrl}" baseUrl)
            "{0}" dateStr))
          (faults i) (pathJoin outputDir template.outputFile)
          (pathJoin outputDir template.outputFile ++ ".tmp") threshold fs).1.success <;>
        simp [hs, hd, hsk, hw, successOutputs, failureNames, successWarnings,
          List.filter_cons] <;>
        cases hwo : (downloadFile
          (transport (replaceFirst (replaceFirst template.urlTemplate "{baseUrl}" baseUrl)
            "{0}" dateStr))
          (faults i) (pathJoin outputDir template.outputFile)
          (pathJoin outputDir template.outputFile ++ ".tmp") threshold fs).1.warning <;>
        simp [hwo, hs, List.filterMap_cons]

/-! ## Claim theorems -/

/-- C1: `validateCSVContent` reports valid exactly when the content contains
none of the literal substrings `<!DOCTYPE`, `<html`, `<body`, `<head` and at
least one of the first three newline-separated lines contains a comma; in
particular the empty string is reported invalid. -/
theorem validateCSVContent_valid_iff :
    (∀ content : String,
      (validateCSVContent content).isValid = true ↔
        ((∀ p ∈ htmlPatterns, ¬ p.data <:+: content.data) ∧
          ∃ line ∈ (content.data.splitOn '\n').take 3, ',' ∈ line)) ∧
      (validateCSVContent "").isValid = false := by
  constructor
  · intro content
    rw [validateCSVContent]
    split
    · next h => simp_all [List.any_eq_true, jsIncludes_iff]
    · next h =>
      split
      · next h2 => simp_all [List.any_eq_true, jsIncludes_iff]
      · next h2 => simp_all [List.any_eq_true, jsIncludes_iff]
  · decide

/-- C2: when the transport rejects or answers a non-2xx status,
`downloadFile` returns `{success:false, warning:null}`, the final path is
untouched, and nothing is ever written to the temp path (it is at most
removed by cleanup).  The embedded function is total, so no exception
propagates to the caller. -/
theorem downloadFile_soft_failure (t : TransportResult) (faults : FsFaults)
    (outputPath tempPath : String) (threshold : ℚ) (fs0 : Fs)
    (hpaths : tempPath ≠ outputPath)
    (ht : t = TransportResult.throws ∨ ∃ body, t = TransportResult.response false body) :
    (downloadFile t faults outputPath tempPath threshold fs0).1 =
        { success := false, warning := none } ∧
      (downloadFile t faults outputPath tempPath threshold fs0).2 outputPath = fs0 outputPath ∧
      ((downloadFile t faults outputPath tempPath threshold fs0).2 tempPath = fs0 tempPath ∨
        (downloadFile t faults outputPath tempPath threshold fs0).2 tempPath = none) := by
  rcases ht with rfl | ⟨body, rfl⟩
  · rw [downloadFile_throws]
    refine ⟨downloadCatch_fst _ _ _,
      downloadCatch_snd_ne _ _ _ _ (Ne.symm hpaths), ?_⟩
    cases hu : faults.unlinkFaults with
    | false => exact Or.inr (downloadCatch_snd_self_ok _ _)
    | true => exact Or.inl (by rw [downloadCatch_snd_fault])
  · rw [downloadFile_not_ok]
    exact ⟨rfl, rfl, Or.inl rfl⟩

/-- C2 witness: a 404-style response on an empty filesystem. -/
theorem downloadFile_soft_failure_witness :
    ("d/a.csv.tmp" : String) ≠ "d/a.csv" ∧
      (downloadFile (TransportResult.response false "err") ⟨false, false, false, false, false⟩
          "d/a.csv" "d/a.csv.tmp" 20 (fun _ => none)).1 =
        { success := false, warning := none } :=
  ⟨by decide,
   (downloadFile_soft_failure (TransportResult.response false "err")
      ⟨false, false, false, false, false⟩ "d/a.csv" "d/a.csv.tmp" 20 (fun _ => none)
      (by decide) (Or.inr ⟨"err", rfl⟩)).1⟩

/-- C3 counterexample: a stale file already sitting at the temp path
survives a non-2xx response — the early `return` of the `ok` check performs
no cleanup, so the temp file remains on disk after `downloadFile` returns. -/
theorem downloadFile_temp_remains_counterexample :
    (downloadFile (TransportResult.response false "err") ⟨false, false, false, false, false⟩
        "data/out.csv" "data/out.csv.tmp" 20
        (fun p => if p = "data/out.csv.tmp" then some "stale" else none)).2
      "data/out.csv.tmp" = some "stale" := by
  rw [downloadFile_not_ok]
  simp

/-- C3 amended: when no file sits at the temp path on entry and the cleanup
unlink does not fault, no file remains at the temp path after
`downloadFile` returns; moreover on failure the final path is untouched and
on success it holds the downloaded body (the renamed temp file). -/
theorem downloadFile_temp_cleared (t : TransportResult) (faults : FsFaults)
    (outputPath tempPath : String) (threshold : ℚ) (fs0 : Fs)
    (hpaths : tempPath ≠ outputPath)
    (htemp : fs0 tempPath = none)
    (hunlink : faults.unlinkFaults = false) :
    (downloadFile t faults outputPath tempPath threshold fs0).2 tempPath = none ∧
      ((downloadFile t faults outputPath tempPath threshold fs0).1.success = false →
        (downloadFile t faults outputPath tempPath threshold fs0).2 outputPath =
          fs0 outputPath) ∧
      ((downloadFile t faults outputPath tempPath threshold fs0).1.success = true →
        ∃ body, t = TransportResult.response true body ∧
          (downloadFile t faults outputPath tempPath threshold fs0).2 outputPath =
            some body) := by
  have hop : outputPath ≠ tempPath := Ne.symm hpaths
  cases t with
  | throws =>
    rw [downloadFile_throws, hunlink]
    refine ⟨downloadCatch_snd_self_ok _ _, fun _ => downloadCatch_snd_ne _ _ _ _ hop,
      fun hs => ?_⟩
    rw [downloadCatch_fst] at hs
    exact absurd hs (by simp)
  | response ok body =>
    cases ok with
    | false =>
      rw [downloadFile_not_ok]
      exact ⟨htemp, fun _ => rfl, fun hs => absurd hs (by simp)⟩
    | true =>
      cases hv : (validateCSVContent body).isValid with
      | false =>
        rw [downloadFile_invalid body faults outputPath tempPath threshold fs0 hv]
        exact ⟨htemp, fun _ => rfl, fun hs => absurd hs (by simp)⟩
      | true =>
        cases hwrite : faults.writeFaults with
        | true =>
          rw [downloadFile_write_throw body faults outputPath tempPath threshold fs0 hv hwrite,
            hunlink]
          refine ⟨downloadCatch_snd_self_ok _ _, fun _ => downloadCatch_snd_ne _ _ _ _ hop,
            fun hs => ?_⟩
          rw [downloadCatch_fst] at hs
          exact absurd hs (by simp)
        | false =>
          by_cases hfail : faults.statTempFaults = true ∨ faults.renameFaults = true ∨
              ((fs0 outputPath).isSome = true ∧ faults.statFinalFaults = true)
          · rw [downloadFile_post_write_throw body faults outputPath tempPath threshold fs0
              hpaths hv hwrite hfail, hunlink]
            refine ⟨downloadCatch_snd_self_ok _ _, fun _ => ?_, fun hs => ?_⟩
            · rw [downloadCatch_snd_ne _ _ _ _ hop]
              simp [hop]
            · rw [downloadCatch_fst] at hs
              exact absurd hs (by simp)
          · push_neg at hfail
            obtain ⟨hst0, hr0, hok⟩ := hfail
            have hst : faults.statTempFaults = false := by simpa using hst0
            have hr : faults.renameFaults = false := by simpa using hr0
            have hok' : faults.statFinalFaults = false ∨ (fs0 outputPath).isSome = false := by
              by_cases hex : (fs0 outputPath).isSome = true
              · exact Or.inl (by simpa using hok hex)
              · exact Or.inr (by simpa using hex)
            obtain ⟨h1, h2, h3⟩ := downloadFile_success_facts body faults outputPath tempPath
              threshold fs0 hpaths hv hwrite hst hr hok'
            refine ⟨h2, fun hs => ?_, fun _ => ⟨body, rfl, h3⟩⟩
            rw [h1] at hs
            exact absurd hs (by simp)

/-- C3 witness: a clean successful download leaves no temp file behind. -/
theorem downloadFile_temp_cleared_witness :
    ("d/a.csv.tmp" : String) ≠ "d/a.csv" ∧
      (fun _ => (none : Option String)) "d/a.csv.tmp" = none ∧
      (FsFaults.mk false false false false false).unlinkFaults = false ∧
      (downloadFile (TransportResult.response true "h1,h2\nv1,v2")
          ⟨false, false, false, false, false⟩ "d/a.csv" "d/a.csv.tmp" 20 (fun _ => none)).2
        "d/a.csv.tmp" = none :=
  ⟨by decide, rfl, rfl,
   (downloadFile_temp_cleared (TransportResult.response true "h1,h2\nv1,v2")
      ⟨false, false, false, false, false⟩ "d/a.csv" "d/a.csv.tmp" 20 (fun _ => none)
      (by decide) rfl rfl).1⟩

/-- C4: every template contributes to exactly one outcome list — the
outcome lists are a partition of the template list by per-file success,
successes contributing their final path (and their warning, when present)
and failures their logical filename, and the lengths of the downloaded and
skipped lists sum to the number of templates. -/
theorem fetchData_partition (transport : String → TransportResult) (faults : ℕ → FsFaults)
    (outputDir baseUrl dateStr : String) (threshold : ℚ)
    (templates : List FileTemplate) (fs0 : Fs) :
    ∃ rs : List FileDownloadResult,
      rs.length = templates.length ∧
      (fetchData transport faults outputDir baseUrl dateStr threshold templates
          fs0).1.downloadedFiles = successOutputs outputDir (templates.zip rs) ∧
      (fetchData transport faults outputDir baseUrl dateStr threshold templates
          fs0).1.skippedFiles = failureNames (templates.zip rs) ∧
      (fetchData transport faults outputDir baseUrl dateStr threshold templates
          fs0).1.fileSizeWarnings = successWarnings (templates.zip rs) ∧
      (fetchData transport faults outputDir baseUrl dateStr threshold templates
            fs0).1.downloadedFiles.length +
          (fetchData transport faults outputDir baseUrl dateStr threshold templates
            fs0).1.skippedFiles.length = templates.length := by
  obtain ⟨rs, hlen, hd, hsk, hw⟩ :=
    fetchLoop_partition transport faults outputDir baseUrl dateStr threshold templates 0 fs0
  refine ⟨rs, hlen, hd, hsk, hw, ?_⟩
  simp only [fetchData] at hd hsk ⊢
  rw [hd, hsk, partition_length, List.length_zip, hlen, Nat.min_self]

/-- C5: a zero old size short-circuits `checkFileSizeChange` before the
division, returning no change and no warning. -/
theorem checkFileSizeChange_zero_old (newSize : ℕ) (threshold : ℚ) (fileName : String) :
    checkFileSizeChange newSize 0 threshold fileName =
      { changed := false, warning := none } := by
  simp [checkFileSizeChange]

/-- C6: for a positive old size, `checkFileSizeChange` warns exactly when
the absolute percent difference strictly exceeds the threshold; an exact
threshold hit produces no warning. -/
theorem checkFileSizeChange_warning_iff (newSize oldSize : ℕ) (threshold : ℚ)
    (fileName : String) (h : 0 < oldSize) :
    ((checkFileSizeChange newSize oldSize threshold fileName).warning.isSome = true ↔
        |((newSize : ℚ) - (oldSize : ℚ)) / (oldSize : ℚ) * 100| > threshold) ∧
      (|((newSize : ℚ) - (oldSize : ℚ)) / (oldSize : ℚ) * 100| = threshold →
        (checkFileSizeChange newSize oldSize threshold fileName).warning = none) := by
  have hoz : ¬ oldSize = 0 := Nat.pos_iff_ne_zero.mp h
  by_cases hgt : |((newSize : ℚ) - (oldSize : ℚ)) / (oldSize : ℚ) * 100| > threshold
  · refine ⟨by simp [checkFileSizeChange, hoz, hgt],
      fun he => absurd hgt (by rw [he]; exact lt_irrefl _)⟩
  · exact ⟨by simp [checkFileSizeChange, hoz, hgt],
      fun _ => by simp [checkFileSizeChange, hoz, hgt]⟩

/-- C6 witness: a change of exactly 20.00% against threshold 20 warns not. -/
theorem checkFileSizeChange_warning_iff_witness :
    (0 : ℕ) < 100 ∧ (checkFileSizeChange 120 100 20 "edubasealldata.csv").warning = none :=
  ⟨by norm_num,
   (checkFileSizeChange_warning_iff 120 100 20 "edubasealldata.csv" (by norm_num)).2
     (by norm_num)⟩

/-- C7 counterexample: swapping the sizes 200 and 100 flips the direction
but changes the percent magnitude from 100% to 50%, because the divisor is
always the second argument — the percent magnitude is not preserved. -/
theorem checkFileSizeChange_swap_counterexample :
    (checkFileSizeChange 200 100 0 "f").warning.map SizeWarning.percent = some 100 ∧
      (checkFileSizeChange 100 200 0 "f").warning.map SizeWarning.percent = some 50 ∧
      (100 : ℚ) ≠ 50 := by
  refine ⟨by norm_num [checkFileSizeChange], by norm_num [checkFileSizeChange], by norm_num⟩

/-- C7 amended: for distinct positive sizes, swapping the first two
arguments flips the direction label and interchanges the reported byte
counts, and the percents are related by `p' · newSize = p · oldSize` — they
coincide only when the two sizes are equal, not in general. -/
theorem checkFileSizeChange_swap (newSize oldSize : ℕ) (threshold : ℚ) (fileName : String)
    (hn : 0 < newSize) (ho : 0 < oldSize) (hne : newSize ≠ oldSize)
    (w w' : SizeWarning)
    (hw : (checkFileSizeChange newSize oldSize threshold fileName).warning = some w)
    (hw' : (checkFileSizeChange oldSize newSize threshold fileName).warning = some w') :
    w'.direction = w.direction.opp ∧
      w'.percent * (newSize : ℚ) = w.percent * (oldSize : ℚ) ∧
      w'.oldSize = w.newSize ∧ w'.newSize = w.oldSize := by
  have hoz : ¬ oldSize = 0 := Nat.pos_iff_ne_zero.mp ho
  have hnz : ¬ newSize = 0 := Nat.pos_iff_ne_zero.mp hn
  rw [checkFileSizeChange] at hw hw'
  rw [if_neg hoz] at hw
  rw [if_neg hnz] at hw'
  by_cases hgt : |((newSize : ℚ) - (oldSize : ℚ)) / (oldSize : ℚ) * 100| > threshold
  · by_cases hgt' : |((oldSize : ℚ) - (newSize : ℚ)) / (newSize : ℚ) * 100| > threshold
    · simp only [hgt, hgt', if_pos] at hw hw'
      obtain rfl : w = _ := (Option.some_injective _ hw.symm)
      obtain rfl : w' = _ := (Option.some_injective _ hw'.symm)
      refine ⟨?_, ?_, rfl, rfl⟩
      · rcases Nat.lt_or_ge newSize oldSize with hlt | hge
        · simp [hlt, Nat.not_lt.mpr (Nat.le_of_lt hlt), ChangeDirection.opp]
        · have hlt' : oldSize < newSize := Nat.lt_of_le_of_ne hge (Ne.symm hne)
          simp [hlt', Nat.not_lt.mpr (Nat.le_of_lt hlt'), ChangeDirection.opp]
      · have h100 : |(100 : ℚ)| = 100 := by norm_num
        have hno : |((newSize : ℚ))| = (newSize : ℚ) := abs_of_pos (by exact_mod_cast hn)
        have hoo : |((oldSize : ℚ))| = (oldSize : ℚ) := abs_of_pos (by exact_mod_cast ho)
        rw [abs_mul, abs_mul, abs_div, abs_div, h100, hno, hoo, abs_sub_comm]
        field_simp
    · simp [hgt'] at hw'
  · simp [hgt] at hw

/-- C7 witness: the amended relation at sizes 200 and 100 with threshold 0. -/
theorem checkFileSizeChange_swap_witness :
    (SizeWarning.mk "f" ChangeDirection.decreased 50 200 100).direction =
        (SizeWarning.mk "f" ChangeDirection.increased 100 100 200).direction.opp ∧
      (SizeWarning.mk "f" ChangeDirection.decreased 50 200 100).percent * ((200 : ℕ) : ℚ) =
        (SizeWarning.mk "f" ChangeDirection.increased 100 100 200).percent * ((100 : ℕ) : ℚ) ∧
      (SizeWarning.mk "f" ChangeDirection.decreased 50 200 100).oldSize =
        (SizeWarning.mk "f" ChangeDirection.increased 100 100 200).newSize ∧
      (SizeWarning.mk "f" ChangeDirection.decreased 50 200 100).newSize =
        (SizeWarning.mk "f" ChangeDirection.increased 100 100 200).oldSize :=
  checkFileSizeChange_swap 200 100 0 "f" (by norm_num) (by norm_num) (by norm_num)
    (SizeWarning.mk "f" ChangeDirection.increased 100 100 200)
    (SizeWarning.mk "f" ChangeDirection.decreased 50 200 100)
    (by norm_num [checkFileSizeChange]) (by norm_num [checkFileSizeChange])

/-- C8: if a step after the temp write throws before the commit,
`downloadFile` attempts to delete the temp file (a working unlink removes
it); if the deletion itself throws, the function still returns
`{success:false, warning:null}` — never success, and no exception escapes
(the embedded function is total). -/
theorem downloadFile_cleanup_no_mask (body : String) (faults : FsFaults)
    (outputPath tempPath : String) (threshold : ℚ) (fs0 : Fs)
    (hpaths : tempPath ≠ outputPath)
    (hv : (validateCSVContent body).isValid = true)
    (hwrite : faults.writeFaults = false)
    (hfail : faults.statTempFaults = true ∨ faults.renameFaults = true ∨
      ((fs0 outputPath).isSome = true ∧ faults.statFinalFaults = true)) :
    (downloadFile (TransportResult.response true body) faults outputPath tempPath threshold
        fs0).1 = { success := false, warning := none } ∧
      (faults.unlinkFaults = false →
        (downloadFile (TransportResult.response true body) faults outputPath tempPath threshold
          fs0).2 tempPath = none) ∧
      (faults.unlinkFaults = true →
        (downloadFile (TransportResult.response true body) faults outputPath tempPath threshold
          fs0).2 tempPath = some body) := by
  rw [downloadFile_post_write_throw body faults outputPath tempPath threshold fs0 hpaths hv
    hwrite hfail]
  refine ⟨downloadCatch_fst _ _ _, fun hu => ?_, fun hu => ?_⟩
  · rw [hu]
    exact downloadCatch_snd_self_ok _ _
  · rw [hu, downloadCatch_snd_fault]
    simp

/-- C8 witness: a faulting temp stat followed by a faulting unlink still
yields a failure result. -/
theorem downloadFile_cleanup_no_mask_witness :
    (validateCSVContent "a,b").isValid = true ∧
      (downloadFile (TransportResult.response true "a,b") ⟨false, true, false, false, true⟩
          "d/a.csv" "d/a.csv.tmp" 20 (fun _ => none)).1 =
        { success := false, warning := none } :=
  ⟨by decide,
   (downloadFile_cleanup_no_mask "a,b" ⟨false, true, false, false, true⟩ "d/a.csv"
      "d/a.csv.tmp" 20 (fun _ => none) (by decide) (by decide) rfl (Or.inl rfl)).1⟩

/-- C9: the validator applies its rules in order with the stated reasons —
HTML markers dominate and yield "Content contains HTML markup"; otherwise a
comma-free first three lines yields "Content lacks comma separators". -/
theorem validateCSVContent_reason_spec :
    (∀ content : String, (∃ p ∈ htmlPatterns, p.data <:+: content.data) →
        validateCSVContent content =
          { isValid := false, reason := some "Content contains HTML markup" }) ∧
      ∀ content : String, (∀ p ∈ htmlPatterns, ¬ p.data <:+: content.data) →
        (∀ line ∈ (content.data.splitOn '\n').take 3, ',' ∉ line) →
        validateCSVContent content =
          { isValid := false, reason := some "Content lacks comma separators" } := by
  constructor
  · intro content h
    rw [validateCSVContent]
    split
    · rfl
    · next hb => exact absurd h (by simp_all [List.any_eq_true, jsIncludes_iff])
  · intro content h1 h2
    rw [validateCSVContent]
    split
    · next hb =>
      rw [List.any_eq_true] at hb
      obtain ⟨p, hp, hinc⟩ := hb
      exact absurd ((jsIncludes_iff _ _).mp hinc) (h1 p hp)
    · split
      · rfl
      · next hl => exact absurd hl (by simp_all [List.any_eq_true])

/-- C9 witness: an HTML page (which also lacks commas) and a comma-free
plain text get the respective reasons. -/
theorem validateCSVContent_reason_spec_witness :
    validateCSVContent "<html>" =
        { isValid := false, reason := some "Content contains HTML markup" } ∧
      validateCSVContent "abc" =
        { isValid := false, reason := some "Content lacks comma separators" } :=
  ⟨validateCSVContent_reason_spec.1 "<html>" (by decide),
   validateCSVContent_reason_spec.2 "abc" (by decide) (by decide)⟩

/-- C10: the consolidated validator is equivalent to the conjunction of the
two legacy predicates it replaces. -/
theorem validateCSVContent_eq_legacy (content : String) :
    (validateCSVContent content).isValid = (!isHtmlContent content && isValidCsv content) := by
  rw [validateCSVContent, isHtmlContent, isValidCsv]
  split
  · next h => simp [h]
  · next h =>
    rw [Bool.not_eq_true] at h
    split
    · next h2 => simp_all
    · next h2 => simp_all

end GiasData
